import Mathlib

/-!
Verification of the Pulsar claude-chat protocol bridge (MCP stdio server,
HTTP bridge, tool execution) against its natural-language specification.

The JavaScript sources are shallowly embedded: JSON values become an
inductive `Json` type, the editor/workspace surface reached through the
global `atom` object becomes an explicit `Workspace` record, thrown JS
exceptions become `Except String`, and each request handler becomes a
total Lean function producing the same observable envelopes.
-/

namespace PulsarMcp

/-- A JSON value, as produced by `JSON.parse` and consumed by the bridge.
Numbers are modelled as integers: every number the bridge itself
constructs (ports, row/column indices, counts, error codes, timestamps)
is integral, and no verified claim depends on fractional values. -/
inductive Json where
  | null
  | bool (b : Bool)
  | num (n : Int)
  | str (s : String)
  | arr (elems : List Json)
  | obj (fields : List (String × Json))

/-- First-match association lookup used for JS property access on a
parsed JSON object. -/
def lookupField : List (String × Json) → String → Option Json
  | [], _ => none
  | (k, v) :: rest, key => if k = key then some v else lookupField rest key

/-- JS property access `v.key`: `none` models `undefined`.  Property
access on primitives yields `undefined`; note that in JS the access
throws on `null`, which the call sites model explicitly where it can
occur. -/
def Json.getField : Json → String → Option Json
  | .obj fields, key => lookupField fields key
  | _, _ => none

/-- JS truthiness of a value. -/
def Json.truthy : Json → Bool
  | .null => false
  | .bool b => b
  | .num n => n != 0
  | .str s => s != ""
  | .arr _ => true
  | .obj _ => true

/-- JS truthiness where `none` models `undefined`. -/
def jsTruthy : Option Json → Bool
  | none => false
  | some j => j.truthy

/-- JS string conversion as used in template literals.  The one corner
not modelled: inside a joined array, `null` elements render as the empty
string; every claim below only ever reaches this function at string
values. -/
def Json.jsString : Json → String
  | .null => "null"
  | .bool true => "true"
  | .bool false => "false"
  | .num n => toString n
  | .str s => s
  | .arr elems => String.intercalate "," (elems.attach.map (fun e => e.1.jsString))
  | .obj _ => "[object Object]"
decreasing_by
  simp_wf
  have h := List.sizeOf_lt_of_mem e.2
  omega

/-- JS string conversion of a possibly-`undefined` value. -/
def jsString? : Option Json → String
  | none => "undefined"
  | some j => j.jsString

/-- Compact `JSON.stringify`.  The 2-space indentation and string
escaping of the source call `JSON.stringify(v, null, 2)` are elided: no
verified claim inspects serialized text. -/
def Json.stringify : Json → String
  | .null => "null"
  | .bool true => "true"
  | .bool false => "false"
  | .num n => toString n
  | .str s => "\"" ++ s ++ "\""
  | .arr elems =>
      "[" ++ String.intercalate "," (elems.attach.map (fun e => e.1.stringify)) ++ "]"
  | .obj fields =>
      "\x7b" ++
        String.intercalate ","
          (fields.attach.map (fun f => "\"" ++ f.1.1 ++ "\":" ++ f.1.2.stringify)) ++
      "\x7d"
decreasing_by
  · simp_wf
    have h := List.sizeOf_lt_of_mem e.2
    omega
  · simp_wf
    obtain ⟨⟨k, v⟩, hf⟩ := f
    have h := List.sizeOf_lt_of_mem hf
    simp at h ⊢
    omega

/-- The canonical execution envelope `{success, data?, error?}`.
`none` in `data`/`error` models the key being absent from the JS
object literal, `some Json.null` models a present key holding `null`. -/
structure ExecutionResult where
  success : Bool
  data : Option Json := none
  error : Option String := none

/-- Serialization of the envelope, preserving JS object-literal key
order and key presence. -/
def ExecutionResult.toJson (r : ExecutionResult) : Json :=
  Json.obj
    ([("success", Json.bool r.success)] ++
     (match r.data with | some d => [("data", d)] | none => []) ++
     (match r.error with | some e => [("error", Json.str e)] | none => []))

/-! ## Host capability model

The bridge reaches the live editor exclusively through the external
`atom` global.  That surface is embedded as a `Workspace` record: pure
accessors (`getActiveTextEditor`, `getPath`, `getSelections`, ...)
become data fields, and each effectful call (`insertText`, `save`,
`workspace.open`, ...) is modelled by its outcome - `Except.ok ()` for
a normal return, `Except.error m` for a thrown JS exception with
message `m`.  The verified claims inspect only the resulting envelopes,
never the mutated editor state, so outcomes are per-call-site fields of
the workspace rather than functions of the call arguments. -/

deriving instance DecidableEq for Except

/-- A 0-indexed buffer position. -/
structure Position where
  row : Nat
  column : Nat
deriving DecidableEq

/-- A buffer range, `selection.getBufferRange()`. -/
structure SelRange where
  start : Position
  stop : Position
deriving DecidableEq

/-- One live selection of an editor. -/
structure Selection where
  text : String
  isEmpty : Bool
  range : SelRange
  /-- Outcome of `selection.insertText(text)`. -/
  insertOutcome : Except String Unit
deriving DecidableEq

/-- One live text editor.  `id` models JS object identity, used for the
`editor === activeEditor` comparison in `getOpenEditors`. -/
structure Editor where
  id : Nat
  path : Option String
  text : String
  cursor : Position
  /-- `editor.getGrammar()?.name`; `none` models an undefined grammar. -/
  grammarName : Option String
  modified : Bool
  lastSelection : Option Selection
  selections : List Selection
  /-- Outcome of `editor.insertText(text)`. -/
  insertOutcome : Except String Unit
  /-- Outcome of `editor.save()`. -/
  saveOutcome : Except String Unit
  /-- Outcome of `setCursorBufferPosition` + `scrollToCursorPosition`. -/
  setCursorOutcome : Except String Unit
  /-- Outcome of range conversion + `setSelectedBufferRanges`. -/
  setSelectionsOutcome : Except String Unit
deriving DecidableEq

/-- A pane item as inspected by `closePane`: `modified` models
`item.isModified && item.isModified()`, `canSave` models the presence
of `item.save`. -/
structure PaneItem where
  modified : Bool
  canSave : Bool
  saveOutcome : Except String Unit
deriving DecidableEq

/-- A workspace pane. -/
structure Pane where
  items : List PaneItem
deriving DecidableEq

/-- Visibility summary of one dock, for `getPanelState`. -/
structure DockState where
  visible : Bool
  itemCount : Nat
deriving DecidableEq

/-- The embedded `atom` workspace surface. -/
structure Workspace where
  activeEditor : Option Editor
  editors : List Editor
  projectPaths : List String
  activePane : Option Pane
  paneCount : Nat
  activePaneIndex : Int
  leftDock : DockState
  rightDock : DockState
  bottomDock : DockState
  /-- Outcome of `atom.workspace.open(...)`. -/
  openOutcome : Except String Unit
  /-- Outcome of `atom.commands.dispatch(...)`. -/
  dispatchOutcome : Except String Unit
  /-- Outcome of `pane.splitLeft()` / `splitRight` / `splitUp` / `splitDown`. -/
  splitOutcome : Except String Unit
  /-- Outcome of `pane.destroyItem(editor, true)`. -/
  destroyItemOutcome : Except String Unit
  /-- Outcome of `pane.destroy()`. -/
  destroyPaneOutcome : Except String Unit

/-- `editor.getPath() || null`: the empty string is falsy. -/
def pathOrNull : Option String → Json
  | some s => if s = "" then Json.null else Json.str s
  | none => Json.null

/-- `editor.getGrammar()?.name || "Plain Text"`. -/
def grammarOr : Option String → String
  | some s => if s = "" then "Plain Text" else s
  | none => "Plain Text"

def positionJson (p : Position) : Json :=
  Json.obj [("row", Json.num p.row), ("column", Json.num p.column)]

def rangeJson (r : SelRange) : Json :=
  Json.obj [("start", positionJson r.start), ("end", positionJson r.stop)]

/-- Strict equality `editor.getPath() === filePath` between a
string-or-undefined path and an argument value. -/
def jsStrictEq : Option String → Option Json → Bool
  | some s, some (Json.str t) => s == t
  | none, none => true
  | _, _ => false

/-- `getActiveEditor()`: the active editor state, or `null`. -/
def getActiveEditorJson (ws : Workspace) : Json :=
  match ws.activeEditor with
  | none => Json.null
  | some editor =>
      Json.obj
        [("path", pathOrNull editor.path),
         ("content", Json.str editor.text),
         ("cursorPosition", positionJson editor.cursor),
         ("grammar", Json.str (grammarOr editor.grammarName)),
         ("modified", Json.bool editor.modified)]

/-- `getSelection()`: the last selection, or `null` when there is no
editor, no selection, or the selection is empty. -/
def getSelectionJson (ws : Workspace) : Json :=
  match ws.activeEditor with
  | none => Json.null
  | some editor =>
      match editor.lastSelection with
      | none => Json.null
      | some selection =>
          if selection.isEmpty then Json.null
          else Json.obj [("text", Json.str selection.text), ("range", rangeJson selection.range)]

/-- `insertText(text)`: `false` without an editor, otherwise true after
`editor.insertText` (whose exception, if any, propagates). -/
def insertText (ws : Workspace) (text : String) : Except String Bool :=
  match ws.activeEditor with
  | none => Except.ok false
  | some editor => do
      let _ ← editor.insertOutcome
      Except.ok true

/-- `replaceSelection(text)`: like `insertText` but through the last
selection. -/
def replaceSelection (ws : Workspace) (text : String) : Except String Bool :=
  match ws.activeEditor with
  | none => Except.ok false
  | some editor =>
      match editor.lastSelection with
      | none => Except.ok false
      | some selection => do
          let _ ← selection.insertOutcome
          Except.ok true

/-- `openFile(filePath, line, column)`: awaits `atom.workspace.open`
inside try/catch, returning `false` on a throw. -/
def openFile (ws : Workspace) : Bool :=
  match ws.openOutcome with
  | Except.ok () => true
  | Except.error _ => false

/-- `goToPosition(line, column)`: `false` without an editor, cursor
movement inside try/catch. -/
def goToPosition (ws : Workspace) : Bool :=
  match ws.activeEditor with
  | none => false
  | some editor =>
      match editor.setCursorOutcome with
      | Except.ok () => true
      | Except.error _ => false

/-- `getOpenEditors()`. -/
def getOpenEditorsJson (ws : Workspace) : Json :=
  Json.arr (ws.editors.map (fun editor =>
    Json.obj
      [("path", pathOrNull editor.path),
       ("modified", Json.bool editor.modified),
       ("active", Json.bool (match ws.activeEditor with
          | some active => editor.id == active.id
          | none => false))]))

/-- `getProjectPaths()`. -/
def getProjectPathsJson (ws : Workspace) : Json :=
  Json.arr (ws.projectPaths.map Json.str)

/-- `saveFile(filePath)`: with a truthy path, saves the matching open
editor or returns `false`; otherwise saves the active editor.  All
inside try/catch. -/
def saveFile (ws : Workspace) (filePath : Option Json) : Bool :=
  let run : Except String Bool :=
    if jsTruthy filePath then
      match ws.editors.find? (fun e => jsStrictEq e.path filePath) with
      | some editor => do
          let _ ← editor.saveOutcome
          Except.ok true
      | none => Except.ok false
    else
      match ws.activeEditor with
      | none => Except.ok false
      | some editor => do
          let _ ← editor.saveOutcome
          Except.ok true
  match run with
  | Except.ok b => b
  | Except.error _ => false

/-- `setSelections(ranges)`: `false` without an editor; the range
conversion and `setSelectedBufferRanges` run inside try/catch. -/
def setSelections (ws : Workspace) : Bool :=
  match ws.activeEditor with
  | none => false
  | some editor =>
      match editor.setSelectionsOutcome with
      | Except.ok () => true
      | Except.error _ => false

/-- `getAllSelections()`. -/
def getAllSelectionsJson (ws : Workspace) : Json :=
  match ws.activeEditor with
  | none => Json.null
  | some editor =>
      Json.arr (editor.selections.map (fun selection =>
        Json.obj
          [("text", Json.str selection.text),
           ("isEmpty", Json.bool selection.isEmpty),
           ("range", rangeJson selection.range)]))

/-- `revealInTreeView(filePath)`: dispatches the reveal command, then
for a truthy path opens the file and dispatches again; try/catch. -/
def revealInTreeView (ws : Workspace) (filePath : Json) : Bool :=
  let run : Except String Unit := do
    let _ ← ws.dispatchOutcome
    if filePath.truthy then do
      let _ ← ws.openOutcome
      let _ ← ws.dispatchOutcome
      Except.ok ()
    else
      Except.ok ()
  match run with
  | Except.ok () => true
  | Except.error _ => false

/-- `closeFile(filePath, save)`: selects the matching or active editor
(`false` when absent), optionally saves a modified editor when `save`
is truthy, then destroys the pane item; try/catch. -/
def closeFile (ws : Workspace) (filePath save : Option Json) : Bool :=
  let run : Except String Bool := do
    let editor? :=
      if jsTruthy filePath then ws.editors.find? (fun e => jsStrictEq e.path filePath)
      else ws.activeEditor
    match editor? with
    | none => Except.ok false
    | some editor => do
        if jsTruthy save && editor.modified then
          let _ ← editor.saveOutcome
          pure ()
        let _ ← ws.destroyItemOutcome
        Except.ok true
  match run with
  | Except.ok b => b
  | Except.error _ => false

/-- `splitPane(direction, filePath)`: valid directions split the active
pane (property access on a missing pane throws, caught to `false`);
the switch default returns `false`; try/catch. -/
def splitPane (ws : Workspace) (direction filePath : Option Json) : Bool :=
  let run : Except String Bool :=
    match direction with
    | some (Json.str "left") | some (Json.str "right")
    | some (Json.str "up") | some (Json.str "down") =>
        match ws.activePane with
        | none => Except.error "Cannot read properties of undefined"
        | some _ => do
            let _ ← ws.splitOutcome
            if jsTruthy filePath then
              let _ ← ws.openOutcome
              pure ()
            Except.ok true
    | _ => Except.ok false
  match run with
  | Except.ok b => b
  | Except.error _ => false

/-- The per-item save loop of `closePane` when `saveAll` is truthy. -/
def savePaneItems : List PaneItem → Except String Unit
  | [] => Except.ok ()
  | item :: rest => do
      if item.modified && item.canSave then
        let _ ← item.saveOutcome
        pure ()
      savePaneItems rest

/-- `closePane(saveAll)`: `false` without an active pane; optionally
saves modified items, then destroys the pane; try/catch. -/
def closePane (ws : Workspace) (saveAll : Option Json) : Bool :=
  let run : Except String Bool := do
    match ws.activePane with
    | none => Except.ok false
    | some pane => do
        if jsTruthy saveAll then
          let _ ← savePaneItems pane.items
          pure ()
        let _ ← ws.destroyPaneOutcome
        Except.ok true
  match run with
  | Except.ok b => b
  | Except.error _ => false

def dockJson (d : DockState) : Json :=
  Json.obj [("visible", Json.bool d.visible), ("items", Json.num d.itemCount)]

/-- `getPanelState()`. -/
def getPanelStateJson (ws : Workspace) : Json :=
  Json.obj
    [("left", dockJson ws.leftDock),
     ("right", dockJson ws.rightDock),
     ("bottom", dockJson ws.bottomDock),
     ("panes", Json.obj
        [("count", Json.num ws.paneCount),
         ("activeIndex", Json.num ws.activePaneIndex)])]

/-! ## Tool execution (the bridge switch) -/

/-- The body of `executeTool`: the switch over tool names inside the
try block.  A JS exception escaping an executor surfaces as
`Except.error`; the catch clause is applied in `executeTool` below.
Note: a top-level `null` request body would make the JS argument
accesses throw a TypeError that the same catch converts to a
`success:false` envelope; property access on our `Json.null` instead
takes the missing-argument validation branch, which produces an
envelope of the same observable shape (success `false`, non-empty
error). -/
def executeToolCore (toolName : String) (args : Json) (ws : Workspace) :
    Except String ExecutionResult :=
  match toolName with
  | "GetActiveEditor" =>
      Except.ok { success := true, data := some (getActiveEditorJson ws) }
  | "GetSelection" =>
      Except.ok { success := true, data := some (getSelectionJson ws) }
  | "InsertText" =>
      match args.getField "text" with
      | some (Json.str text) => do
          let result ← insertText ws text
          Except.ok { success := result,
                      data := some (Json.obj [("inserted", Json.bool result)]) }
      | _ => Except.ok { success := false, error := some "text is required" }
  | "ReplaceSelection" =>
      match args.getField "text" with
      | some (Json.str text) => do
          let result ← replaceSelection ws text
          Except.ok { success := result,
                      data := some (Json.obj [("replaced", Json.bool result)]) }
      | _ => Except.ok { success := false, error := some "text is required" }
  | "OpenFile" =>
      match args.getField "path" with
      | some (Json.str _) =>
          let result := openFile ws
          Except.ok { success := result,
                      data := some (Json.obj [("opened", Json.bool result)]) }
      | _ => Except.ok { success := false, error := some "path is required" }
  | "GoToPosition" =>
      match args.getField "line" with
      | some (Json.num _) =>
          let result := goToPosition ws
          Except.ok { success := result,
                      data := some (Json.obj [("navigated", Json.bool result)]) }
      | _ => Except.ok { success := false, error := some "line is required" }
  | "GetOpenEditors" =>
      Except.ok { success := true, data := some (getOpenEditorsJson ws) }
  | "GetProjectPaths" =>
      Except.ok { success := true, data := some (getProjectPathsJson ws) }
  | "SaveFile" =>
      let result := saveFile ws (args.getField "path")
      Except.ok { success := result,
                  data := some (Json.obj [("saved", Json.bool result)]) }
  | "SetSelections" =>
      match args.getField "ranges" with
      | some (Json.arr ranges) =>
          if ranges.isEmpty then
            Except.ok { success := false, error := some "ranges array is required" }
          else
            let result := setSelections ws
            Except.ok { success := result,
                        data := some (Json.obj
                          [("selectionsSet", Json.bool result),
                           ("count", Json.num ranges.length)]) }
      | _ => Except.ok { success := false, error := some "ranges array is required" }
  | "GetAllSelections" =>
      Except.ok { success := true, data := some (getAllSelectionsJson ws) }
  | "RevealInTreeView" =>
      match args.getField "path" with
      | some (Json.str path) =>
          let result := revealInTreeView ws (Json.str path)
          Except.ok { success := result,
                      data := some (Json.obj [("revealed", Json.bool result)]) }
      | _ => Except.ok { success := false, error := some "path is required" }
  | "CloseFile" =>
      let result := closeFile ws (args.getField "path") (args.getField "save")
      Except.ok { success := result,
                  data := some (Json.obj [("closed", Json.bool result)]) }
  | "SplitPane" =>
      match args.getField "direction" with
      | some (Json.str direction) =>
          if direction == "left" || direction == "right" ||
             direction == "up" || direction == "down" then
            let result := splitPane ws (some (Json.str direction)) (args.getField "path")
            Except.ok { success := result,
                        data := some (Json.obj
                          [("split", Json.bool result),
                           ("direction", Json.str direction)]) }
          else
            Except.ok { success := false,
                        error := some "direction must be one of: left, right, up, down" }
      | _ =>
          Except.ok { success := false,
                      error := some "direction must be one of: left, right, up, down" }
  | "ClosePane" =>
      let result := closePane ws (args.getField "saveAll")
      Except.ok { success := result,
                  data := some (Json.obj [("closed", Json.bool result)]) }
  | "GetPanelState" =>
      Except.ok { success := true, data := some (getPanelStateJson ws) }
  | _ =>
      Except.ok { success := false, error := some ("Unknown tool: " ++ toolName) }

/-- `executeTool(toolName, args)`: the switch wrapped in try/catch; a
caught exception is reported as `{success:false, error:message}`. -/
def executeTool (toolName : String) (args : Json) (ws : Workspace) : ExecutionResult :=
  match executeToolCore toolName args ws with
  | Except.ok result => result
  | Except.error message => { success := false, error := some message }

/-- The tool names the bridge can execute: the case labels of
`executeTool` in the direct bridge, identical to the keys of
`toolRegistry` in the registry bridge. -/
def bridgeToolNames : List String :=
  ["GetActiveEditor", "GetSelection", "InsertText", "ReplaceSelection",
   "OpenFile", "GoToPosition", "GetOpenEditors", "GetProjectPaths",
   "SaveFile", "SetSelections", "GetAllSelections", "RevealInTreeView",
   "CloseFile", "SplitPane", "ClosePane", "GetPanelState"]

/-! ## Tool Catalog

The static tool list shared by `tools/list`, `GET /tools` and the stdio
catalog check.  Every handler consumes only the tool names; the long
`description` strings and full JSON input schemas are data never read
by any code path under verification, so a definition records the name
and the schema's `required` list. -/

structure ToolDefinition where
  name : String
  required : List String
deriving DecidableEq

def tools : List ToolDefinition :=
  [{ name := "GetActiveEditor", required := [] },
   { name := "InsertText", required := ["text"] },
   { name := "OpenFile", required := ["path"] },
   { name := "GetProjectPaths", required := [] },
   { name := "SaveFile", required := [] },
   { name := "SetSelections", required := ["ranges"] },
   { name := "GetSelections", required := [] },
   { name := "CloseFile", required := [] },
   { name := "FindText", required := ["pattern"] },
   { name := "AddProjectPath", required := ["path"] }]

def toolJson (t : ToolDefinition) : Json :=
  Json.obj [("name", Json.str t.name)]

def toolsJson : Json :=
  Json.arr (tools.map toolJson)

/-! ## HTTP bridge server -/

/-- `[A-Z]` (the ASCII range, as in the JS regex). -/
def isUpperAZ (c : Char) : Bool := 'A' ≤ c && c ≤ 'Z'

/-- `[a-zA-Z]`. -/
def isAlphaAZ (c : Char) : Bool := isUpperAZ c || ('a' ≤ c && c ≤ 'z')

/-- The anchored name part of the route regex `^[A-Z][a-zA-Z]*$`. -/
def routeNameChars : List Char → Bool
  | [] => false
  | c :: cs => isUpperAZ c && cs.all isAlphaAZ

/-- Whether a string matches `^[A-Z][a-zA-Z]*$`. -/
def isToolRouteName (s : String) : Bool := routeNameChars s.data

/-- `pathname.match(/^\/tools\/([A-Z][a-zA-Z]*)$/)`: the captured tool
name, when the pathname matches. -/
def toolRoute (path : String) : Option String :=
  match path.data with
  | '/' :: 't' :: 'o' :: 'o' :: 'l' :: 's' :: '/' :: rest =>
      if routeNameChars rest then some (String.mk rest) else none
  | _ => none

/-- `parseBody(req)`: an empty body resolves to `{}` without parsing;
otherwise the `JSON.parse` outcome (`parsed`, `none` on failure) either
resolves or rejects with `Invalid JSON body`. -/
def parseBody (raw : String) (parsed : Option Json) : Except String Json :=
  if raw = "" then Except.ok (Json.obj [])
  else
    match parsed with
    | some j => Except.ok j
    | none => Except.error "Invalid JSON body"

/-- An incoming HTTP request.  `pathname` is the parsed URL path (query
strings are not consumed by any route); `bodyJson` is the `JSON.parse`
outcome of `bodyRaw`, `none` meaning the raw text does not parse. -/
structure BridgeRequest where
  method : String
  pathname : String
  bodyRaw : String
  bodyJson : Option Json

/-- An HTTP response: status code and the JSON body written by
`sendJson` (`none` for the bodyless 204 preflight reply). -/
structure HttpResponse where
  status : Nat
  body : Option Json

/-- The bridge request handler.  `now` stands for `Date.now()`.  The
single throw site reachable inside the try block is the `parseBody`
rejection, which the catch clause converts to a
`500 ` + `{error: message}` response. -/
def handleBridge (ws : Workspace) (now : Int) (req : BridgeRequest) : HttpResponse :=
  if req.method = "OPTIONS" then
    { status := 204, body := none }
  else if req.method = "GET" ∧ req.pathname = "/health" then
    { status := 200,
      body := some (Json.obj [("status", Json.str "ok"), ("timestamp", Json.num now)]) }
  else if req.method = "GET" ∧ req.pathname = "/tools" then
    { status := 200, body := some (Json.obj [("tools", toolsJson)]) }
  else
    match toolRoute req.pathname, req.method == "POST" with
    | some toolName, true =>
        match parseBody req.bodyRaw req.bodyJson with
        | Except.error message =>
            { status := 500, body := some (Json.obj [("error", Json.str message)]) }
        | Except.ok args =>
            let result := executeTool toolName args ws
            if result.success then { status := 200, body := some result.toJson }
            else { status := 400, body := some result.toJson }
    | _, _ =>
        { status := 404, body := some (Json.obj [("error", Json.str "Not found")]) }

/-! ## Bridge startup and shutdown -/

def DEFAULT_PORT : Nat := 3000

def DEFAULT_HOST : String := "127.0.0.1"

structure BridgeConfig where
  port : Option Nat := none
  host : Option String := none

/-- The record `startBridge` returns.  `listening` records whether the
single `server.listen(port, host)` call could bind the port (the listen
`error` event is not handled anywhere in the source). -/
structure BridgeInstance where
  port : Nat
  host : String
  listening : Bool
deriving DecidableEq

/-- `startBridge(config)`: resolves port and host with `??` defaults,
issues one `server.listen(port, host)` and immediately returns
`{port, host, stop}`.  `occupied` is the set of ports already bound by
other processes; binding succeeds exactly when the configured port is
free.  No retry, rebind or port increment appears in the source. -/
def startBridge (config : BridgeConfig) (occupied : List Nat) : BridgeInstance :=
  let port := config.port.getD DEFAULT_PORT
  let host := config.host.getD DEFAULT_HOST
  { port := port, host := host, listening := decide (port ∉ occupied) }

/-- Fuel-bounded search used only to state what the specification
demands: the first free port at or above `p`. -/
def firstFreeAux : Nat → List Nat → Nat → Nat
  | 0, _, p => p
  | fuel + 1, occupied, p =>
      if p ∈ occupied then firstFreeAux fuel occupied (p + 1) else p

/-- The first port `q ≥ p` with `q ∉ occupied`. -/
def firstFreeFrom (occupied : List Nat) (p : Nat) : Nat :=
  firstFreeAux (occupied.length + 1) occupied p

/-- The listening socket state owned by a bridge. -/
structure ServerState where
  listening : Bool
deriving DecidableEq

/-- `server.close(cb)`: Node invokes the callback with an error
(ERR_SERVER_NOT_RUNNING) when the server was not open when it was
closed, and without one otherwise. -/
def serverClose (s : ServerState) : ServerState × Except String Unit :=
  if s.listening then ({ listening := false }, Except.ok ())
  else (s, Except.error "Server is not running.")

/-- `bridge.stop()`: a promise that resolves when `server.close`
reports no error and rejects with that error otherwise. -/
def bridgeStop (s : ServerState) : ServerState × Except String Unit :=
  serverClose s

/-- `stopBridge(bridge)` awaits `bridge.stop()`. -/
def stopBridge (s : ServerState) : ServerState × Except String Unit :=
  bridgeStop s

/-! ## MCP stdio server -/

/-- Outcome of the `fetch` + `response.json()` pair inside
`callBridge`: HTTP status flag and parsed body, or a thrown network
error with its message. -/
structure FetchResp where
  ok : Bool
  body : Json

/-- The stdio server environment: `PULSAR_BRIDGE_HOST`/`PORT` resolved
once at startup, the result of the `GET /health` probe (`response.ok`,
false when the fetch throws), and the bridge behaviour for
`POST /tools/:name` requests. -/
structure StdioEnv where
  host : String
  port : Nat
  healthOk : Bool
  bridge : String → Json → Except String FetchResp

/-- An outgoing HTTP call made by the stdio server while handling one
request, recorded so ordering claims can be stated. -/
inductive BridgeCall where
  | health
  | post (toolName : String) (args : Json)

/-- A thrown JS value as observed by the line handler catch clause:
`code` when the thrown object carries one (`e.code`), and its message.
The `e.message || String(e)` fallback for empty messages is not
modelled: no verified claim reaches a throw site with an empty
message. -/
structure JsError where
  code : Option Int
  message : String

/-- The -32603 message thrown when the health probe fails. -/
def bridgeUnavailableMessage (host : String) (port : Nat) : String :=
  "Pulsar bridge not available at http://" ++ host ++ ":" ++ toString port ++
    ". Make sure Pulsar is running with the claude-chat package activated."

/-- `result.error || fallback` followed by `new Error(x)`: the value
when truthy (stringified), else the fallback. -/
def jsOrElseStr (v : Option Json) (fallback : String) : String :=
  match v with
  | some j => if j.truthy then j.jsString else fallback
  | none => fallback

/-- `callBridge(toolName, args)`: POSTs to the bridge and returns
`result.data`, throwing on a non-2xx status or a `success:false`
envelope.  An absent `data` key would propagate as `undefined`; it is
modelled as `null`, a corner no verified claim reaches. -/
def callBridge (env : StdioEnv) (toolName : String) (args : Json) : Except JsError Json :=
  match env.bridge toolName args with
  | Except.error m => Except.error { code := none, message := m }
  | Except.ok resp =>
      let result := resp.body
      if !resp.ok || !(jsTruthy (result.getField "success")) then
        Except.error
          { code := none,
            message := jsOrElseStr (result.getField "error")
              ("Tool call failed: " ++ toolName) }
      else
        Except.ok ((result.getField "data").getD Json.null)

/-- The static `initialize` handshake payload. -/
def initializeResultJson : Json :=
  Json.obj
    [("protocolVersion", Json.str "2024-11-05"),
     ("capabilities", Json.obj [("tools", Json.obj [])]),
     ("serverInfo", Json.obj
        [("name", Json.str "pulsar"), ("version", Json.str "0.1.0")])]

/-- `handleRequest(req)`: the JSON-RPC method dispatch, together with
the trace of bridge HTTP calls it performs.  `req` is an object here:
the line handler only reaches this call after finding an `id`
property, which only objects have.  Destructuring `params` throws a
TypeError in JS when `params` is absent or `null`, before any bridge
call; the exact platform TypeError text is abbreviated. -/
def handleRequest (env : StdioEnv) (req : Json) : Except JsError Json × List BridgeCall :=
  match req.getField "method" with
  | some (Json.str "initialize") => (Except.ok initializeResultJson, [])
  | some (Json.str "tools/list") => (Except.ok (Json.obj [("tools", toolsJson)]), [])
  | some (Json.str "tools/call") =>
      match req.getField "params" with
      | none =>
          (Except.error
            { code := none, message := "Cannot destructure property name of params" }, [])
      | some Json.null =>
          (Except.error
            { code := none, message := "Cannot destructure property name of params" }, [])
      | some params =>
          let name := params.getField "name"
          let args := params.getField "arguments"
          if env.healthOk then
            match tools.find? (fun t => jsStrictEq (some t.name) name) with
            | none =>
                (Except.error
                  { code := some (-32601), message := "Unknown tool: " ++ jsString? name },
                 [BridgeCall.health])
            | some tool =>
                -- the URL interpolates `name`, which `===`-matched the
                -- found entry, so `tool.name` is the same string
                let argsJson :=
                  match args with
                  | some a => if a.truthy then a else Json.obj []
                  | none => Json.obj []
                match callBridge env tool.name argsJson with
                | Except.error e =>
                    (Except.error e, [BridgeCall.health, BridgeCall.post tool.name argsJson])
                | Except.ok data =>
                    (Except.ok (Json.obj
                      [("content", Json.arr
                        [Json.obj
                          [("type", Json.str "text"),
                           ("text", Json.str data.stringify)]])]),
                     [BridgeCall.health, BridgeCall.post tool.name argsJson])
          else
            (Except.error
              { code := some (-32603),
                message := bridgeUnavailableMessage env.host env.port },
             [BridgeCall.health])
  | m =>
      (Except.error
        { code := some (-32601), message := "Method not found: " ++ jsString? m }, [])

/-- `send(msg)` for a success: `{jsonrpc, id, result}`. -/
def rpcResult (id : Json) (result : Json) : Json :=
  Json.obj [("jsonrpc", Json.str "2.0"), ("id", id), ("result", result)]

/-- `send(msg)` for an error: `{jsonrpc, id, error:{code, message}}`.
The code is `e.code || -32603`; no thrown code in the source is `0`,
so `||` coincides with defaulting an absent code. -/
def rpcError (id : Json) (code : Int) (message : String) : Json :=
  Json.obj
    [("jsonrpc", Json.str "2.0"), ("id", id),
     ("error", Json.obj [("code", Json.num code), ("message", Json.str message)])]

/-- One `rl.on("line")` callback: the input line is represented by its
`JSON.parse` outcome (`none` = parse failure).  Returns the response
lines written to stdout and the bridge calls made.  One unreachable
corner: a line holding the literal `null` parses but makes `req.id`
throw in JS, which also writes no response line; here field access on
`Json.null` yields `undefined` and the line is likewise dropped with no
output. -/
def processLine (env : StdioEnv) (parsed : Option Json) : List Json × List BridgeCall :=
  match parsed with
  | none => ([rpcError Json.null (-32700) "Parse error"], [])
  | some req =>
      match req.getField "id" with
      | none => ([], [])
      | some id =>
          match handleRequest env req with
          | (Except.ok result, calls) => ([rpcResult id result], calls)
          | (Except.error e, calls) =>
              ([rpcError id (e.code.getD (-32603)) e.message], calls)

/-- The whole stdio session: lines are handled independently, with no
state carried between them. -/
def processLines (env : StdioEnv) : List (Option Json) → List Json
  | [] => []
  | line :: rest => (processLine env line).1 ++ processLines env rest

/-- The request object an agent sends for `tools/call`. -/
def toolsCallRequest (id : Json) (name : String) (args : Json) : Json :=
  Json.obj
    [("jsonrpc", Json.str "2.0"), ("id", id), ("method", Json.str "tools/call"),
     ("params", Json.obj [("name", Json.str name), ("arguments", args)])]

/-- A workspace with nothing open: no active editor, no editors, no
panes, and every host operation succeeding. -/
def noEditorWorkspace : Workspace :=
  { activeEditor := none, editors := [], projectPaths := [],
    activePane := none, paneCount := 0, activePaneIndex := -1,
    leftDock := { visible := false, itemCount := 0 },
    rightDock := { visible := false, itemCount := 0 },
    bottomDock := { visible := false, itemCount := 0 },
    openOutcome := Except.ok (), dispatchOutcome := Except.ok (),
    splitOutcome := Except.ok (), destroyItemOutcome := Except.ok (),
    destroyPaneOutcome := Except.ok () }

/-! ## Theorems about the claims -/

/-- The tool route regex captures exactly the name appended to
`/tools/` whenever the name matches `^[A-Z][a-zA-Z]*$`. -/
theorem toolRoute_append (name : String) (h : isToolRouteName name = true) :
    toolRoute ("/tools/" ++ name) = some name := by
  have hdata : ("/tools/" ++ name).data
      = '/' :: 't' :: 'o' :: 'o' :: 'l' :: 's' :: '/' :: name.data := by
    show ("/tools/".data ++ name.data) = _
    rfl
  unfold toolRoute
  rw [hdata]
  simp only [isToolRouteName] at h
  simp [h]

/-- Claim C5, counterexample: a POST with a body that is not valid
JSON is answered with status 500 (the `parseBody` rejection reaches
the outer catch clause), not with a 4xx client error. -/
theorem c5_counterexample_malformed_body_500 :
    (handleBridge noEditorWorkspace 0
      { method := "POST", pathname := "/tools/InsertText",
        bodyRaw := "not json", bodyJson := none }).status = 500
    ∧ (handleBridge noEditorWorkspace 0
        { method := "POST", pathname := "/tools/InsertText",
          bodyRaw := "not json", bodyJson := none }).body
        = some (Json.obj [("error", Json.str "Invalid JSON body")])
    ∧ ¬ (400 ≤ (handleBridge noEditorWorkspace 0
          { method := "POST", pathname := "/tools/InsertText",
            bodyRaw := "not json", bodyJson := none }).status
         ∧ (handleBridge noEditorWorkspace 0
            { method := "POST", pathname := "/tools/InsertText",
              bodyRaw := "not json", bodyJson := none }).status ≤ 499) := by
  refine ⟨rfl, rfl, ?_⟩
  intro hx
  have : (500 : Nat) ≤ 499 := hx.2
  omega

/-- Claim C5, amended: an empty POST body is executed as the empty
argument object, but a non-empty body that fails to parse is answered
with `500 ` + `{error: "Invalid JSON body"}` - an internal error
status, not a 4xx client error. -/
theorem c5_amended_empty_body_vs_malformed :
    ∀ (ws : Workspace) (now : Int) (name raw : String) (parsed : Option Json),
      isToolRouteName name = true →
      raw ≠ "" →
      handleBridge ws now
          { method := "POST", pathname := "/tools/" ++ name,
            bodyRaw := "", bodyJson := parsed }
        = (let result := executeTool name (Json.obj []) ws
           if result.success then { status := 200, body := some result.toJson }
           else { status := 400, body := some result.toJson })
      ∧ handleBridge ws now
          { method := "POST", pathname := "/tools/" ++ name,
            bodyRaw := raw, bodyJson := none }
        = { status := 500, body := some (Json.obj [("error", Json.str "Invalid JSON body")]) } := by
  intro ws now name raw parsed hname hraw
  have hroute := toolRoute_append name hname
  constructor
  · simp [handleBridge, hroute, parseBody]
  · simp [handleBridge, hroute, parseBody, hraw]

/-- Witness for `c5_amended_empty_body_vs_malformed` on the
`InsertText` route with the unparseable body `not json`. -/
theorem c5_amended_empty_body_vs_malformed_witness :
    isToolRouteName "InsertText" = true
    ∧ "not json" ≠ ""
    ∧ (handleBridge noEditorWorkspace 0
          { method := "POST", pathname := "/tools/" ++ "InsertText",
            bodyRaw := "", bodyJson := none }
        = (let result := executeTool "InsertText" (Json.obj []) noEditorWorkspace
           if result.success then { status := 200, body := some result.toJson }
           else { status := 400, body := some result.toJson })
       ∧ handleBridge noEditorWorkspace 0
          { method := "POST", pathname := "/tools/" ++ "InsertText",
            bodyRaw := "not json", bodyJson := none }
        = { status := 500, body := some (Json.obj [("error", Json.str "Invalid JSON body")]) }) :=
  ⟨by decide, by decide,
   c5_amended_empty_body_vs_malformed noEditorWorkspace 0 "InsertText" "not json" none
     (by decide) (by decide)⟩

/-- Claim C3, counterexample: `InsertText` with a valid text argument
but no open editor produces `{success:false, data:{inserted:false}}` -
the registry-level success flag mirrors the executor boolean instead of
staying true. -/
theorem c3_counterexample_insertText_success_false :
    executeTool "InsertText" (Json.obj [("text", Json.str "hi")]) noEditorWorkspace
      = { success := false, data := some (Json.obj [("inserted", Json.bool false)]),
          error := none }
    ∧ (executeTool "InsertText" (Json.obj [("text", Json.str "hi")]) noEditorWorkspace).success
        ≠ true := by
  refine ⟨rfl, ?_⟩
  intro hx
  exact Bool.false_ne_true hx

/-- Claim C3, amended: when the `InsertText` executor returns `false`
for lack of an active editor, the resulting envelope has
`success:false` mirroring that boolean, with the falsy outcome also
carried inside `data` as `{inserted:false}` and no error message. -/
theorem c3_amended_insertText_false_mirrored :
    ∀ (ws : Workspace) (text : String),
      ws.activeEditor = none →
      executeTool "InsertText" (Json.obj [("text", Json.str text)]) ws
        = { success := false, data := some (Json.obj [("inserted", Json.bool false)]),
            error := none } := by
  intro ws text h
  simp [executeTool, executeToolCore, Json.getField, lookupField, insertText, h,
    Bind.bind, Except.bind]

/-- Witness for `c3_amended_insertText_false_mirrored` on a workspace
with no editor open. -/
theorem c3_amended_insertText_false_mirrored_witness :
    noEditorWorkspace.activeEditor = none
    ∧ executeTool "InsertText" (Json.obj [("text", Json.str "hi")]) noEditorWorkspace
        = { success := false, data := some (Json.obj [("inserted", Json.bool false)]),
            error := none } :=
  ⟨rfl, c3_amended_insertText_false_mirrored noEditorWorkspace "hi" rfl⟩

/-- Claim C4: `FindText`, `AddProjectPath` and `GetSelections` are
advertised in the Tool Catalog, yet the bridge has no executor for
them: `executeTool` answers the unknown-tool envelope and the HTTP
route turns it into a 400 response, for any arguments and workspace -
the advertised and the executable tool sets diverge. -/
theorem c4_advertised_tools_not_executable :
    ∀ (args : Json) (ws : Workspace) (now : Int),
      ("FindText" ∈ tools.map ToolDefinition.name
        ∧ executeTool "FindText" args ws
            = { success := false, data := none, error := some "Unknown tool: FindText" }
        ∧ handleBridge ws now
            { method := "POST", pathname := "/tools/FindText", bodyRaw := "", bodyJson := none }
          = { status := 400,
              body := some (ExecutionResult.toJson
                { success := false, data := none, error := some "Unknown tool: FindText" }) })
      ∧ ("AddProjectPath" ∈ tools.map ToolDefinition.name
        ∧ executeTool "AddProjectPath" args ws
            = { success := false, data := none, error := some "Unknown tool: AddProjectPath" }
        ∧ handleBridge ws now
            { method := "POST", pathname := "/tools/AddProjectPath", bodyRaw := "", bodyJson := none }
          = { status := 400,
              body := some (ExecutionResult.toJson
                { success := false, data := none, error := some "Unknown tool: AddProjectPath" }) })
      ∧ ("GetSelections" ∈ tools.map ToolDefinition.name
        ∧ executeTool "GetSelections" args ws
            = { success := false, data := none, error := some "Unknown tool: GetSelections" }
        ∧ handleBridge ws now
            { method := "POST", pathname := "/tools/GetSelections", bodyRaw := "", bodyJson := none }
          = { status := 400,
              body := some (ExecutionResult.toJson
                { success := false, data := none, error := some "Unknown tool: GetSelections" }) }) := by
  intro args ws now
  exact ⟨⟨by decide, rfl, rfl⟩, ⟨by decide, rfl, rfl⟩, ⟨by decide, rfl, rfl⟩⟩

/-- Claim C2, counterexample: with base port 3000 already bound by
another instance, `startBridge` still reports port 3000 itself - not
the first available port 3001 - and its listen call cannot bind, so
the claimed increment-and-retry behaviour does not exist. -/
theorem c2_counterexample_base_port_occupied :
    (startBridge { port := some 3000 } [3000]).port = 3000
    ∧ (startBridge { port := some 3000 } [3000]).listening = false
    ∧ firstFreeFrom [3000] 3000 = 3001
    ∧ ¬ ((startBridge { port := some 3000 } [3000]).port = firstFreeFrom [3000] 3000
         ∧ (startBridge { port := some 3000 } [3000]).port ≠ 3000) := by
  decide

/-- Claim C2, amended: `startBridge` performs a single bind attempt and
unconditionally reports the configured base port; when that port is
occupied the bind fails and the instance still reports the base port,
with no retry on any higher port. -/
theorem c2_amended_startBridge_reports_base_port :
    ∀ (p : Nat) (host : Option String) (occupied : List Nat),
      p ∈ occupied →
      (startBridge { port := some p, host := host } occupied).port = p
      ∧ (startBridge { port := some p, host := host } occupied).listening = false := by
  intro p host occupied hp
  refine ⟨rfl, ?_⟩
  simp [startBridge, hp]

/-- Witness for `c2_amended_startBridge_reports_base_port` at port 3000
occupied by another instance. -/
theorem c2_amended_startBridge_reports_base_port_witness :
    3000 ∈ [3000]
    ∧ (startBridge { port := some 3000, host := none } [3000]).port = 3000
    ∧ (startBridge { port := some 3000, host := none } [3000]).listening = false :=
  ⟨by decide,
   (c2_amended_startBridge_reports_base_port 3000 none [3000] (by decide)).1,
   (c2_amended_startBridge_reports_base_port 3000 none [3000] (by decide)).2⟩

/-- Claim C10, counterexample: after a started bridge's stop completes
once, the second stop call rejects (Node invokes the close callback
with an error on a server that is not running), so stop is not
idempotent. -/
theorem c10_counterexample_second_stop_rejects :
    (bridgeStop { listening := true }).2 = Except.ok ()
    ∧ (bridgeStop (bridgeStop { listening := true }).1).2
        = Except.error "Server is not running." := by
  decide

/-- Claim C10, amended: the first stop of a listening bridge resolves
and closes the socket, but a repeated stop rejects with the
server-not-running error instead of completing successfully. -/
theorem c10_amended_stop_once_then_reject :
    ∀ s : ServerState, s.listening = true →
      (bridgeStop s).2 = Except.ok ()
      ∧ (bridgeStop s).1.listening = false
      ∧ (bridgeStop (bridgeStop s).1).2 = Except.error "Server is not running." := by
  intro s hs
  simp [bridgeStop, serverClose, hs]

/-- Witness for `c10_amended_stop_once_then_reject` on a listening
bridge. -/
theorem c10_amended_stop_once_then_reject_witness :
    (⟨true⟩ : ServerState).listening = true
    ∧ ((bridgeStop ⟨true⟩).2 = Except.ok ()
       ∧ (bridgeStop ⟨true⟩).1.listening = false
       ∧ (bridgeStop (bridgeStop ⟨true⟩).1).2 = Except.error "Server is not running.") :=
  ⟨rfl, c10_amended_stop_once_then_reject ⟨true⟩ rfl⟩

/-- A bind whose continuation immediately succeeds fails exactly when
its source fails. -/
theorem bind_ok_fun_error {α β : Type} (x : Except String α) (g : α → β) (m : String)
    (h : (do let a ← x; Except.ok (g a)) = Except.error m) : x = Except.error m := by
  cases x with
  | ok a => simp [Bind.bind, Except.bind] at h
  | error m0 =>
      simp [Bind.bind, Except.bind] at h
      rw [h]

/-- A bind whose continuation immediately succeeds yields the
continuation applied to the value of its successful source. -/
theorem bind_ok_fun_ok {α β : Type} (x : Except String α) (g : α → β) (r : β)
    (h : (do let a ← x; Except.ok (g a)) = Except.ok r) : ∃ a, x = Except.ok a ∧ r = g a := by
  cases x with
  | ok a =>
      refine ⟨a, rfl, ?_⟩
      simp [Bind.bind, Except.bind] at h
      exact h.symm
  | error m => simp [Bind.bind, Except.bind] at h

/-- `insertText` can only throw what `editor.insertText` throws, and
only when an editor is active. -/
theorem insertText_error (ws : Workspace) (text : String) (m : String)
    (h : insertText ws text = Except.error m) :
    ∃ e, ws.activeEditor = some e ∧ e.insertOutcome = Except.error m := by
  cases hae : ws.activeEditor with
  | none => unfold insertText at h; simp [hae] at h
  | some e =>
      unfold insertText at h
      simp only [hae] at h
      cases hio : e.insertOutcome with
      | ok u => simp only [hio] at h; simp [Bind.bind, Except.bind] at h
      | error m0 =>
          simp only [hio] at h
          simp [Bind.bind, Except.bind] at h
          exact ⟨e, rfl, by rw [hio, h]⟩

/-- `replaceSelection` can only throw what `selection.insertText`
throws, and only through the active editor's last selection. -/
theorem replaceSelection_error (ws : Workspace) (text : String) (m : String)
    (h : replaceSelection ws text = Except.error m) :
    ∃ e sel, ws.activeEditor = some e ∧ e.lastSelection = some sel
      ∧ sel.insertOutcome = Except.error m := by
  cases hae : ws.activeEditor with
  | none => unfold replaceSelection at h; simp [hae] at h
  | some e =>
      unfold replaceSelection at h
      simp only [hae] at h
      cases hsel : e.lastSelection with
      | none => simp only [hsel] at h; simp at h
      | some sel =>
          simp only [hsel] at h
          cases hio : sel.insertOutcome with
          | ok u => simp only [hio] at h; simp [Bind.bind, Except.bind] at h
          | error m0 =>
              simp only [hio] at h
              simp [Bind.bind, Except.bind] at h
              exact ⟨e, sel, rfl, hsel, by rw [hio, h]⟩

/-- The unknown-tool message is never the empty string. -/
theorem unknown_msg_ne_empty (t : String) : ("Unknown tool: " ++ t) ≠ "" := by
  intro hx
  have hdata : "Unknown tool: ".data ++ t.data = ([] : List Char) := by
    show ("Unknown tool: " ++ t).data = "".data
    rw [hx]
  simp at hdata

/-- The host boundary hypothesis used by the amended claim C1: the only
JS exceptions that can escape an executor uncaught - those of
`editor.insertText` and `selection.insertText` - carry non-empty
messages. -/
def insertExnMessagesNonempty (ws : Workspace) : Prop :=
  ∀ e, ws.activeEditor = some e →
    (∀ m, e.insertOutcome = Except.error m → m ≠ "")
    ∧ (∀ sel, e.lastSelection = some sel →
        ∀ m, sel.insertOutcome = Except.error m → m ≠ "")

/-- Every successful return of the switch body is an envelope that is
either a success, a data-carrying executor result, or a non-empty
validation/unknown-tool error. -/
theorem executeToolCore_ok_shape (toolName : String) (args : Json) (ws : Workspace)
    (r : ExecutionResult) (h : executeToolCore toolName args ws = Except.ok r)
    (hfail : r.success = false) :
    (∃ m, r.error = some m ∧ m ≠ "") ∨ (r.error = none ∧ r.data.isSome = true) := by
  unfold executeToolCore at h
  split at h
  all_goals try split at h
  all_goals try split at h
  all_goals first
    | (injection h with h
       subst h
       first
         | exact Bool.noConfusion hfail
         | exact Or.inr ⟨rfl, rfl⟩
         | exact Or.inl ⟨_, rfl, unknown_msg_ne_empty _⟩
         | exact Or.inl ⟨_, rfl, by decide⟩)
    | (obtain ⟨b, hx, hr⟩ := bind_ok_fun_ok _ _ _ h
       subst hr
       exact Or.inr ⟨rfl, rfl⟩)

/-- Every exception the switch body lets escape comes from an insert
operation, hence carries a non-empty message under the host boundary
hypothesis. -/
theorem executeToolCore_error_nonempty (toolName : String) (args : Json) (ws : Workspace)
    (m : String) (hws : insertExnMessagesNonempty ws)
    (h : executeToolCore toolName args ws = Except.error m) : m ≠ "" := by
  unfold executeToolCore at h
  split at h
  all_goals try split at h
  all_goals try split at h
  all_goals first
    | exact Except.noConfusion h
    | (have hx := bind_ok_fun_error _ _ _ h
       first
         | exact Exists.elim (insertText_error ws _ m hx)
             (fun e hh => (hws e hh.1).1 m hh.2)
         | exact Exists.elim (replaceSelection_error ws _ m hx)
             (fun e hh => Exists.elim hh
               (fun sel h3 => (hws e h3.1).2 sel h3.2.1 m h3.2.2)))

/-- Claim C1, counterexample: `SaveFile` with no active editor returns
`{success:false, data:{saved:false}}` - a failure envelope whose error
field is absent, not a non-empty string. -/
theorem c1_counterexample_saveFile_no_error :
    (executeTool "SaveFile" (Json.obj []) noEditorWorkspace).success = false
    ∧ (executeTool "SaveFile" (Json.obj []) noEditorWorkspace).error = none
    ∧ (executeTool "SaveFile" (Json.obj []) noEditorWorkspace).data
        = some (Json.obj [("saved", Json.bool false)]) :=
  ⟨rfl, rfl, rfl⟩

/-- Claim C1, amended: a `success:false` envelope from `executeTool`
either carries a non-empty error string (validation failures, unknown
tools, caught host exceptions with non-empty messages) or carries no
error at all with the falsy executor outcome recorded in a present
data field. -/
theorem c1_amended_failure_has_error_or_data :
    ∀ (toolName : String) (args : Json) (ws : Workspace),
      insertExnMessagesNonempty ws →
      (executeTool toolName args ws).success = false →
      (∃ m, (executeTool toolName args ws).error = some m ∧ m ≠ "")
      ∨ ((executeTool toolName args ws).error = none
         ∧ ((executeTool toolName args ws).data).isSome = true) := by
  intro toolName args ws hws hfail
  rcases hcore : executeToolCore toolName args ws with m | r
  · have hr : executeTool toolName args ws
        = { success := false, data := none, error := some m } := by
      simp [executeTool, hcore]
    rw [hr]
    exact Or.inl ⟨m, rfl, executeToolCore_error_nonempty toolName args ws m hws hcore⟩
  · have hr : executeTool toolName args ws = r := by simp [executeTool, hcore]
    rw [hr] at hfail ⊢
    exact executeToolCore_ok_shape toolName args ws r hcore hfail

/-- Witness for `c1_amended_failure_has_error_or_data` at the
`SaveFile` failure on a workspace with no editor. -/
theorem c1_amended_failure_has_error_or_data_witness :
    insertExnMessagesNonempty noEditorWorkspace
    ∧ (executeTool "SaveFile" (Json.obj []) noEditorWorkspace).success = false
    ∧ ((∃ m, (executeTool "SaveFile" (Json.obj []) noEditorWorkspace).error = some m ∧ m ≠ "")
       ∨ ((executeTool "SaveFile" (Json.obj []) noEditorWorkspace).error = none
          ∧ ((executeTool "SaveFile" (Json.obj []) noEditorWorkspace).data).isSome = true)) := by
  have hpred : insertExnMessagesNonempty noEditorWorkspace := by
    intro e he
    simp [noEditorWorkspace] at he
  exact ⟨hpred, rfl,
    c1_amended_failure_has_error_or_data "SaveFile" (Json.obj []) noEditorWorkspace hpred rfl⟩

/-- A name outside the 16 executor case labels falls through to the
default switch case and its unknown-tool envelope. -/
theorem executeToolCore_unknown (name : String) (args : Json) (ws : Workspace)
    (h : name ∉ bridgeToolNames) :
    executeToolCore name args ws
      = Except.ok { success := false, data := none, error := some ("Unknown tool: " ++ name) } := by
  simp only [bridgeToolNames, List.mem_cons, List.not_mem_nil, or_false, not_or] at h
  obtain ⟨h1, h2, h3, h4, h5, h6, h7, h8, h9, h10, h11, h12, h13, h14, h15, h16⟩ := h
  unfold executeToolCore
  split <;> simp_all

/-- A name absent from the Tool Catalog makes the stdio catalog lookup
fail. -/
theorem tools_find_none (name : String)
    (h : name ∉ tools.map ToolDefinition.name) :
    tools.find? (fun t => jsStrictEq (some t.name) (some (Json.str name))) = none := by
  simp only [tools, List.map_cons, List.map_nil, List.mem_cons, List.not_mem_nil,
    or_false, not_or] at h
  obtain ⟨h1, h2, h3, h4, h5, h6, h7, h8, h9, h10⟩ := h
  apply List.find?_eq_none.mpr
  intro t ht
  have hname : t.name ≠ name := by
    simp only [tools, List.mem_cons, List.not_mem_nil, or_false] at ht
    rcases ht with rfl | rfl | rfl | rfl | rfl | rfl | rfl | rfl | rfl | rfl
    exacts [Ne.symm h1, Ne.symm h2, Ne.symm h3, Ne.symm h4, Ne.symm h5,
      Ne.symm h6, Ne.symm h7, Ne.symm h8, Ne.symm h9, Ne.symm h10]
  simp [jsStrictEq, hname]

/-- Claim C6: an unregistered tool name, for any arguments, makes
`executeTool` return the `Unknown tool` envelope (the default switch
case, inside the catch-all try block, so nothing is thrown); the HTTP
route answers 400 with that envelope, and the stdio server rejects the
name against the catalog after only the health probe - one error
response, no tool POST, no crash. -/
theorem c6_unknown_tool_error_envelope :
    ∀ (name : String) (args : Json) (ws : Workspace) (now : Int)
      (env : StdioEnv) (reqId : Json),
      name ∉ bridgeToolNames →
      isToolRouteName name = true →
      env.healthOk = true →
      name ∉ tools.map ToolDefinition.name →
      executeTool name args ws
        = { success := false, data := none, error := some ("Unknown tool: " ++ name) }
      ∧ handleBridge ws now
          { method := "POST", pathname := "/tools/" ++ name, bodyRaw := "", bodyJson := none }
        = { status := 400,
            body := some (ExecutionResult.toJson
              { success := false, data := none, error := some ("Unknown tool: " ++ name) }) }
      ∧ processLine env (some (toolsCallRequest reqId name args))
        = ([rpcError reqId (-32601) ("Unknown tool: " ++ name)], [BridgeCall.health]) := by
  intro name args ws now env reqId hbridge hroute hhealth hcatalog
  have hexec : ∀ a, executeTool name a ws
      = { success := false, data := none, error := some ("Unknown tool: " ++ name) } := by
    intro a
    simp [executeTool, executeToolCore_unknown name a ws hbridge]
  refine ⟨hexec args, ?_, ?_⟩
  · simp [handleBridge, toolRoute_append name hroute, parseBody, hexec (Json.obj [])]
  · simp [processLine, toolsCallRequest, Json.getField, lookupField, handleRequest,
      hhealth, tools_find_none name hcatalog, jsString?, Json.jsString]

/-- Witness for `c6_unknown_tool_error_envelope` at the route-shaped
name `Frobnicate`, absent from both the executor switch and the
catalog. -/
theorem c6_unknown_tool_error_envelope_witness :
    executeTool "Frobnicate" (Json.obj []) noEditorWorkspace
        = { success := false, data := none, error := some ("Unknown tool: " ++ "Frobnicate") }
    ∧ handleBridge noEditorWorkspace 0
        { method := "POST", pathname := "/tools/" ++ "Frobnicate", bodyRaw := "", bodyJson := none }
        = { status := 400,
            body := some (ExecutionResult.toJson
              { success := false, data := none, error := some ("Unknown tool: " ++ "Frobnicate") }) }
    ∧ processLine
        { host := "127.0.0.1", port := 3000, healthOk := true,
          bridge := fun _ _ => Except.ok { ok := true, body := Json.obj [] } }
        (some (toolsCallRequest (Json.num 7) "Frobnicate" (Json.obj [])))
        = ([rpcError (Json.num 7) (-32601) ("Unknown tool: " ++ "Frobnicate")],
           [BridgeCall.health]) :=
  c6_unknown_tool_error_envelope "Frobnicate" (Json.obj []) noEditorWorkspace 0
    { host := "127.0.0.1", port := 3000, healthOk := true,
      bridge := fun _ _ => Except.ok { ok := true, body := Json.obj [] } }
    (Json.num 7) (by decide) (by decide) rfl (by decide)

/-- Claim C9: on a `tools/call` request the stdio server probes the
bridge health before any other outgoing action; when the probe fails
it answers a single -32603 JSON-RPC error whose message spells out the
resolved host:port and instructs that Pulsar must be running, makes no
tool POST, and keeps serving subsequent lines. -/
theorem c9_health_probe_first_and_unavailable_error :
    ∀ (env : StdioEnv) (reqId : Json) (name : String) (args : Json)
      (rest : List (Option Json)),
      (handleRequest env (toolsCallRequest reqId name args)).2.head? = some BridgeCall.health
      ∧ (env.healthOk = false →
          processLine env (some (toolsCallRequest reqId name args))
            = ([rpcError reqId (-32603) (bridgeUnavailableMessage env.host env.port)],
               [BridgeCall.health]))
      ∧ (∃ pre post, bridgeUnavailableMessage env.host env.port
          = pre ++ (env.host ++ ":" ++ toString env.port) ++ post)
      ∧ (∃ pre post, bridgeUnavailableMessage env.host env.port
          = pre ++ "Make sure Pulsar is running" ++ post)
      ∧ processLines env (some (toolsCallRequest reqId name args) :: rest)
          = (processLine env (some (toolsCallRequest reqId name args))).1
              ++ processLines env rest := by
  intro env reqId name args rest
  refine ⟨?_, ?_, ?_, ?_, rfl⟩
  · cases hh : env.healthOk
    · simp [handleRequest, toolsCallRequest, Json.getField, lookupField, hh]
    · cases hfind : tools.find? (fun t => jsStrictEq (some t.name)
          (some (Json.str name))) with
      | none =>
          simp [handleRequest, toolsCallRequest, Json.getField, lookupField, hh, hfind]
      | some tool =>
          simp [handleRequest, toolsCallRequest, Json.getField, lookupField, hh, hfind]
          split <;> rfl
  · intro hh
    simp [processLine, handleRequest, toolsCallRequest, Json.getField, lookupField, hh]
  · refine ⟨"Pulsar bridge not available at http://",
      ". Make sure Pulsar is running with the claude-chat package activated.", ?_⟩
    simp [bridgeUnavailableMessage, String.append_assoc]
  · refine ⟨"Pulsar bridge not available at http://" ++ env.host ++ ":" ++ toString env.port
        ++ ". ", " with the claude-chat package activated.", ?_⟩
    simp only [bridgeUnavailableMessage, String.append_assoc]
    congr 1

/-- Witness for `c9_health_probe_first_and_unavailable_error` with the
bridge down at the default 127.0.0.1:3000. -/
theorem c9_health_probe_first_and_unavailable_error_witness :
    processLine
        { host := "127.0.0.1", port := 3000, healthOk := false,
          bridge := fun _ _ => Except.error "fetch failed" }
        (some (toolsCallRequest (Json.num 1) "GetProjectPaths" (Json.obj [])))
      = ([rpcError (Json.num 1) (-32603) (bridgeUnavailableMessage "127.0.0.1" 3000)],
         [BridgeCall.health]) :=
  (c9_health_probe_first_and_unavailable_error
    { host := "127.0.0.1", port := 3000, healthOk := false,
      bridge := fun _ _ => Except.error "fetch failed" }
    (Json.num 1) "GetProjectPaths" (Json.obj []) []).2.1 rfl

/-- Claim C7: a line that does not parse as JSON makes the stdio server
emit exactly one JSON-RPC error response with code -32700 and id null,
perform no bridge call, and keep answering all subsequent lines. -/
theorem c7_parse_error_one_response_then_continue :
    ∀ (env : StdioEnv) (rest : List (Option Json)),
      (processLine env none).1 = [rpcError Json.null (-32700) "Parse error"]
      ∧ (processLine env none).1.length = 1
      ∧ (processLine env none).2 = []
      ∧ processLines env (none :: rest)
          = rpcError Json.null (-32700) "Parse error" :: processLines env rest := by
  intro env rest
  exact ⟨rfl, rfl, rfl, rfl⟩

/-- Claim C8: a parsed JSON-RPC message with no id field is treated as
a notification - the stdio server writes no response line for it and
performs no bridge call, whatever the method. -/
theorem c8_no_id_no_response :
    ∀ (env : StdioEnv) (req : Json),
      req.getField "id" = none →
      processLine env (some req) = ([], []) := by
  intro env req h
  simp [processLine, h]

/-- Witness for `c8_no_id_no_response` on a well-formed `tools/list`
notification. -/
theorem c8_no_id_no_response_witness :
    (Json.obj [("jsonrpc", Json.str "2.0"), ("method", Json.str "tools/list")]).getField "id"
        = none
    ∧ processLine
        { host := "127.0.0.1", port := 3000, healthOk := true,
          bridge := fun _ _ => Except.ok { ok := true, body := Json.obj [] } }
        (some (Json.obj [("jsonrpc", Json.str "2.0"), ("method", Json.str "tools/list")]))
        = ([], []) :=
  ⟨rfl, c8_no_id_no_response _ _ rfl⟩

end PulsarMcp
